import Mathlib

/-!
Verification of the wealist-advanced-go-pkg shared utility library.

Shallow embedding of the Go sources:
* `health`     — src/health/health.go (health/readiness probe aggregation)
* `config`     — the config package (Load, LoadFromEnv, parseDatabaseURL)
* `response`   — src/response/response.go (pagination metadata)
* `middleware` — the CORS middleware

Go machine integers are modelled as `Int` (Go `int`/`int64` are 64-bit on
all targeted platforms; no claim involves wrap-around), Go strings as
`String`, `os.Getenv` as a total function `String → String` (Go returns ""
for an unset variable), and fallible operations as `Option`/`Except`.
-/

namespace health

/-- Status represents health check status (health.go lines 14-21). -/
inductive Status where
  | healthy
  | unhealthy
  | degraded
deriving DecidableEq, Repr

/-- ComponentCheck represents a single component's health (health.go lines 30-35). -/
structure ComponentCheck where
  status : Status
  message : String := ""
  latency : String := ""
deriving DecidableEq, Repr

/-- HealthResponse represents the health check response (health.go lines 23-28).
The `checks` map is modelled as an association list in registration order. -/
structure HealthResponse where
  status : Status
  timestamp : String
  checks : List (String × ComponentCheck) := []
deriving DecidableEq, Repr

/-- A registered checker at probe time: its `Name()` and the `ComponentCheck`
its `Check(ctx)` call returns on this probe cycle.  Checkers are opaque to the
aggregator (health.go lines 37-41), so they are modelled by their observable
answers. -/
structure CheckerSpec where
  name : String
  check : ComponentCheck
deriving DecidableEq, Repr

/-- One iteration of the aggregation loop body (health.go lines 90-94):
updates the running overall status from one component check. -/
def overallStep (overall : Status) (check : ComponentCheck) : Status :=
  if check.status = Status.unhealthy then Status.unhealthy
  else if check.status = Status.degraded ∧ overall = Status.healthy then Status.degraded
  else overall

/-- The overall status computed by the readiness loop (health.go lines 84-95):
starts at `healthy` and folds `overallStep` left over the registered checkers. -/
def readyOverall (checkers : List CheckerSpec) : Status :=
  checkers.foldl (fun overall ck => overallStep overall ck.check) Status.healthy

/-- The per-component results collected by the readiness loop
(health.go lines 83-88). -/
def readyChecks (checkers : List CheckerSpec) : List (String × ComponentCheck) :=
  checkers.map fun ck => (ck.name, ck.check)

/-- The HTTP status code chosen by the readiness handler
(health.go lines 97-100). -/
def readyStatusCode (checkers : List CheckerSpec) : Nat :=
  if readyOverall checkers = Status.unhealthy then 503 else 200

/-- ReadyHandler (health.go lines 73-108): HTTP status code and JSON body of
the readiness probe, given the registry contents and the formatted current
time. -/
def ReadyHandler (checkers : List CheckerSpec) (now : String) : Nat × HealthResponse :=
  (readyStatusCode checkers,
   { status := readyOverall checkers, timestamp := now, checks := readyChecks checkers })

/-- HealthHandler (health.go lines 63-71): the liveness probe.  The handler
closure never reads the registry; it is passed here only to state
independence from it. -/
def HealthHandler (checkers : List CheckerSpec) (now : String) : Nat × HealthResponse :=
  let _ := checkers
  (200, { status := Status.healthy, timestamp := now, checks := [] })

/-- Numeric severity of a status under the order
unhealthy > degraded > healthy. -/
def severity : Status → Nat
  | Status.healthy => 0
  | Status.degraded => 1
  | Status.unhealthy => 2

/-- The maximum of two statuses under the severity order. -/
def statusMax (a b : Status) : Status :=
  if severity a ≤ severity b then b else a

/-- DatabaseChecker.Check (health.go lines 132-155).  `dbResult` models
`d.db.DB()` (error text on failure), `pingResult` models
`sqlDB.PingContext(ctx)`, `elapsed` the formatted latency measurement. -/
def databaseCheck (dbResult : Except String Unit) (pingResult : Except String Unit)
    (elapsed : String) : ComponentCheck :=
  match dbResult with
  | Except.error e =>
      { status := Status.unhealthy, message := "Failed to get database connection: " ++ e }
  | Except.ok _ =>
      match pingResult with
      | Except.error e =>
          { status := Status.unhealthy, message := "Database ping failed: " ++ e }
      | Except.ok _ =>
          { status := Status.healthy, message := "Database connection OK", latency := elapsed }

/-- RedisChecker.Check (health.go lines 173-188).  `pingResult` models the
caller-supplied `pingFunc(ctx)` call. -/
def redisCheck (pingResult : Except String Unit) (elapsed : String) : ComponentCheck :=
  match pingResult with
  | Except.error e =>
      { status := Status.unhealthy, message := "Redis ping failed: " ++ e }
  | Except.ok _ =>
      { status := Status.healthy, message := "Redis connection OK", latency := elapsed }

end health

namespace config

/-! String helpers modelling the Go standard-library calls used by the
config package, over explicit character lists so that everything computes. -/

/-- Split at the first occurrence of `sep`: `none` when `sep` is absent. -/
def splitFirst (sep : Char) : List Char → Option (List Char × List Char)
  | [] => none
  | c :: rest =>
    if c = sep then some ([], rest)
    else (splitFirst sep rest).map fun p => (c :: p.1, p.2)

/-- Split at the last occurrence of `sep`: `none` when `sep` is absent. -/
def splitLast (sep : Char) (l : List Char) : Option (List Char × List Char) :=
  match splitFirst sep l.reverse with
  | none => none
  | some p => some (p.2.reverse, p.1.reverse)

/-- `strings.Split` on a single-character separator: always returns at least
one (possibly empty) part. -/
def splitAll (sep : Char) : List Char → List (List Char)
  | [] => [[]]
  | c :: rest =>
    if c = sep then [] :: splitAll sep rest
    else
      match splitAll sep rest with
      | [] => [[c]]
      | h :: t => (c :: h) :: t

/-- Split at the first occurrence of the three-character scheme separator
`"://"`. -/
def splitSchemeSep : List Char → Option (List Char × List Char)
  | ':' :: '/' :: '/' :: rest => some ([], rest)
  | c :: rest => (splitSchemeSep rest).map fun p => (c :: p.1, p.2)
  | [] => none

/-- `strings.Contains s (String.singleton sep)`. -/
def containsChar (sep : Char) (l : List Char) : Bool :=
  l.any (· = sep)

/-- The userinfo component of a parsed URL (`url.Userinfo`):
`password = none` models `Password() = ("", false)`. -/
structure URLUserinfo where
  username : String
  password : Option String
deriving DecidableEq, Repr

/-- A parsed URL, the fields of Go's `url.URL` read by `parseDatabaseURL`.
`user = none` models `u.User == nil`; the query is an association list in
source order. -/
structure GoURL where
  scheme : String
  user : Option URLUserinfo
  host : String
  path : String
  query : List (String × String)
deriving DecidableEq, Repr

/-- Model of the Go standard library's `net/url.Parse` (external code, not
part of this repository), restricted to absolute URLs of the shape
`scheme://[userinfo@]host[/path][?query][#fragment]` without
percent-escapes: the fragment is stripped first, then the query is cut at
the first `?`, the scheme at `://`, the authority ends at the first `/`,
userinfo ends at the last `@`, and a userinfo password starts at the first
`:`.  URLs outside this shape yield `none` (treated as a parse error by the
caller, which is conservative: no claim depends on them). -/
def goURLParse (s : String) : Option GoURL :=
  let l := s.toList
  let beforeFrag := match splitFirst '#' l with
    | none => l
    | some p => p.1
  let cutQuery := match splitFirst '?' beforeFrag with
    | none => (beforeFrag, ([] : List Char))
    | some p => p
  match splitSchemeSep cutQuery.1 with
  | none => none
  | some schemeRest =>
    let cutPath := match splitFirst '/' schemeRest.2 with
      | none => (schemeRest.2, ([] : List Char))
      | some p => (p.1, '/' :: p.2)
    let cutUser := match splitLast '@' cutPath.1 with
      | none => ((none : Option (List Char)), cutPath.1)
      | some p => (some p.1, p.2)
    let user := cutUser.1.map fun ui =>
      match splitFirst ':' ui with
      | none => ({ username := String.mk ui, password := none } : URLUserinfo)
      | some p => { username := String.mk p.1, password := some (String.mk p.2) }
    let query := (splitAll '&' cutQuery.2).filterMap fun part =>
      let cutEq := match splitFirst '=' part with
        | none => (part, ([] : List Char))
        | some p => p
      if cutEq.1 = [] then none
      else some (String.mk cutEq.1, String.mk cutEq.2)
    some { scheme := String.mk schemeRest.1, user := user, host := String.mk cutUser.2,
           path := String.mk cutPath.2, query := query }

/-- `url.Values.Get`: first value for the key, `""` when absent. -/
def queryGet (q : List (String × String)) (key : String) : String :=
  match q.find? (fun p => p.1 = key) with
  | none => ""
  | some p => p.2

/-- Value of a non-empty all-digit character list; `none` otherwise. -/
def digitsVal (l : List Char) : Option Nat :=
  if l = [] then none
  else l.foldlM (fun acc c => if c.isDigit then some (acc * 10 + (c.toNat - 48)) else none) 0

/-- Model of Go's `strconv.Atoi` (standard library): optional sign, decimal
digits, error (`none`) on empty/ill-formed input or 64-bit overflow. -/
def goAtoi (s : String) : Option Int :=
  match s.toList with
  | '+' :: rest => (digitsVal rest).bind fun n =>
      if n ≤ 2 ^ 63 - 1 then some (Int.ofNat n) else none
  | '-' :: rest => (digitsVal rest).bind fun n =>
      if n ≤ 2 ^ 63 then some (-(Int.ofNat n)) else none
  | l => (digitsVal l).bind fun n =>
      if n ≤ 2 ^ 63 - 1 then some (Int.ofNat n) else none

/-- Model of the call `strings.TrimPrefix(u.Path, "/")` at part_000 line 316:
drops one leading slash when present. -/
def dropLeadingSlash (s : String) : String :=
  match s.toList with
  | '/' :: rest => String.mk rest
  | _ => s

/-- ServerConfig (part_000 lines 27-35); durations in nanoseconds
(Go `time.Duration`). -/
structure ServerConfig where
  Port : Int
  Mode : String
  BasePath : String
  ReadTimeout : Int
  WriteTimeout : Int
  ShutdownTimeout : Int
deriving DecidableEq, Repr

/-- DatabaseConfig (part_000 lines 37-49). -/
structure DatabaseConfig where
  Host : String
  Port : String
  User : String
  Password : String
  DBName : String
  SSLMode : String
  URL : String
  MaxOpenConns : Int
  MaxIdleConns : Int
  ConnMaxLifetime : Int
deriving DecidableEq, Repr

/-- RedisConfig (part_000 lines 51-59). -/
structure RedisConfig where
  Host : String
  Port : Int
  Password : String
  DB : Int
  URL : String
  TLS : Bool
deriving DecidableEq, Repr

/-- JWTConfig (part_000 lines 61-65). -/
structure JWTConfig where
  Secret : String
  ExpireTime : Int
deriving DecidableEq, Repr

/-- ServicesConfig (part_000 lines 67-77). -/
structure ServicesConfig where
  AuthServiceURL : String
  UserServiceURL : String
  BoardServiceURL : String
  ChatServiceURL : String
  NotiServiceURL : String
  StorageServiceURL : String
  VideoServiceURL : String
  Timeout : Int
deriving DecidableEq, Repr

/-- CORSConfig (part_000 lines 79-82). -/
structure CORSConfig where
  AllowedOrigins : String
deriving DecidableEq, Repr

/-- S3Config (part_000 lines 84-91). -/
structure S3Config where
  Bucket : String
  Region : String
  AccessKey : String
  SecretKey : String
  Endpoint : String
deriving DecidableEq, Repr

/-- LoggerConfig (part_000 lines 93-97). -/
structure LoggerConfig where
  Level : String
  OutputPath : String
deriving DecidableEq, Repr

/-- Config (part_000 lines 15-25). -/
structure Config where
  Server : ServerConfig
  Database : DatabaseConfig
  Redis : RedisConfig
  JWT : JWTConfig
  Services : ServicesConfig
  CORS : CORSConfig
  S3 : S3Config
  Logger : LoggerConfig
deriving DecidableEq, Repr

/-- DefaultConfig (part_000 lines 99-137).  Unset Go struct fields are their
zero values (`""`, `0`, `false`). -/
def DefaultConfig : Config :=
  { Server := { Port := 8080, Mode := "debug", BasePath := ""
                ReadTimeout := 10 * 1000000000, WriteTimeout := 10 * 1000000000
                ShutdownTimeout := 30 * 1000000000 }
    Database := { Host := "localhost", Port := "5432", User := "postgres"
                  Password := "", DBName := "", SSLMode := "disable", URL := ""
                  MaxOpenConns := 25, MaxIdleConns := 5
                  ConnMaxLifetime := 5 * 60 * 1000000000 }
    Redis := { Host := "localhost", Port := 6379, Password := "", DB := 0
               URL := "", TLS := false }
    JWT := { Secret := "", ExpireTime := 24 * 3600 * 1000000000 }
    Services := { AuthServiceURL := "", UserServiceURL := "", BoardServiceURL := ""
                  ChatServiceURL := "", NotiServiceURL := "", StorageServiceURL := ""
                  VideoServiceURL := "", Timeout := 5 * 1000000000 }
    CORS := { AllowedOrigins := "*" }
    S3 := { Bucket := "", Region := "", AccessKey := "", SecretKey := "", Endpoint := "" }
    Logger := { Level := "info", OutputPath := "stdout" } }

/-- parseDatabaseURL (part_000 lines 292-320): parses DATABASE_URL and
populates individual fields; on a URL-parse error the config is returned
unchanged. -/
def parseDatabaseURL (c : Config) (databaseURL : String) : Config :=
  match goURLParse databaseURL with
  | none => c
  | some u =>
    let c := match u.user with
      | none => c
      | some ui =>
        { c with Database.User := ui.username
                 Database.Password := ui.password.getD "" }
    let c :=
      if u.host ≠ "" then
        if containsChar ':' u.host.toList then
          let parts := splitAll ':' u.host.toList
          { c with Database.Host := String.mk (parts.getD 0 [])
                   Database.Port := String.mk (parts.getD 1 []) }
        else
          { c with Database.Host := u.host, Database.Port := "5432" }
      else c
    let c := { c with Database.DBName := dropLeadingSlash u.path }
    let sslmode := queryGet u.query "sslmode"
    if sslmode ≠ "" then { c with Database.SSLMode := sslmode } else c

/-- The Server section of LoadFromEnv (part_000 lines 161-191).
`g` models `os.Getenv` (returns `""` for an unset variable). -/
def loadServerEnv (g : String → String) (c : Config) : Config :=
  let c := if g "PORT" ≠ "" then
      match goAtoi (g "PORT") with
      | some p => { c with Server.Port := p }
      | none => c
    else c
  let c := if g "SERVER_PORT" ≠ "" then
      match goAtoi (g "SERVER_PORT") with
      | some p => { c with Server.Port := p }
      | none => c
    else c
  let c := if g "SERVER_MODE" ≠ "" then { c with Server.Mode := g "SERVER_MODE" } else c
  let c := if g "GIN_MODE" ≠ "" then { c with Server.Mode := g "GIN_MODE" } else c
  let c := if g "ENV" ≠ "" then
      if g "ENV" = "dev" then { c with Server.Mode := "debug" }
      else if g "ENV" = "prod" then { c with Server.Mode := "release" }
      else { c with Server.Mode := g "ENV" }
    else c
  if g "SERVER_BASE_PATH" ≠ "" then { c with Server.BasePath := g "SERVER_BASE_PATH" } else c

/-- The Database section of LoadFromEnv (part_000 lines 193-212):
DATABASE_URL is applied first, then the individual variables. -/
def loadDatabaseEnv (g : String → String) (c : Config) : Config :=
  let c := if g "DATABASE_URL" ≠ "" then
      parseDatabaseURL { c with Database.URL := g "DATABASE_URL" } (g "DATABASE_URL")
    else c
  let c := if g "DB_HOST" ≠ "" then { c with Database.Host := g "DB_HOST" } else c
  let c := if g "DB_PORT" ≠ "" then { c with Database.Port := g "DB_PORT" } else c
  let c := if g "DB_USER" ≠ "" then { c with Database.User := g "DB_USER" } else c
  let c := if g "DB_PASSWORD" ≠ "" then { c with Database.Password := g "DB_PASSWORD" } else c
  if g "DB_NAME" ≠ "" then { c with Database.DBName := g "DB_NAME" } else c

/-- The Redis section of LoadFromEnv (part_000 lines 214-228). -/
def loadRedisEnv (g : String → String) (c : Config) : Config :=
  let c := if g "REDIS_HOST" ≠ "" then { c with Redis.Host := g "REDIS_HOST" } else c
  let c := if g "REDIS_PORT" ≠ "" then
      match goAtoi (g "REDIS_PORT") with
      | some p => { c with Redis.Port := p }
      | none => c
    else c
  let c := if g "REDIS_PASSWORD" ≠ "" then { c with Redis.Password := g "REDIS_PASSWORD" } else c
  if g "REDIS_URL" ≠ "" then { c with Redis.URL := g "REDIS_URL" } else c

/-- The JWT section of LoadFromEnv (part_000 lines 230-236). -/
def loadJWTEnv (g : String → String) (c : Config) : Config :=
  let c := if g "JWT_SECRET" ≠ "" then { c with JWT.Secret := g "JWT_SECRET" } else c
  if g "SECRET_KEY" ≠ "" then { c with JWT.Secret := g "SECRET_KEY" } else c

/-- The Services section of LoadFromEnv (part_000 lines 238-259). -/
def loadServicesEnv (g : String → String) (c : Config) : Config :=
  let c := if g "AUTH_SERVICE_URL" ≠ "" then
      { c with Services.AuthServiceURL := g "AUTH_SERVICE_URL" } else c
  let c := if g "USER_SERVICE_URL" ≠ "" then
      { c with Services.UserServiceURL := g "USER_SERVICE_URL" } else c
  let c := if g "BOARD_SERVICE_URL" ≠ "" then
      { c with Services.BoardServiceURL := g "BOARD_SERVICE_URL" } else c
  let c := if g "CHAT_SERVICE_URL" ≠ "" then
      { c with Services.ChatServiceURL := g "CHAT_SERVICE_URL" } else c
  let c := if g "NOTI_SERVICE_URL" ≠ "" then
      { c with Services.NotiServiceURL := g "NOTI_SERVICE_URL" } else c
  let c := if g "STORAGE_SERVICE_URL" ≠ "" then
      { c with Services.StorageServiceURL := g "STORAGE_SERVICE_URL" } else c
  if g "VIDEO_SERVICE_URL" ≠ "" then
    { c with Services.VideoServiceURL := g "VIDEO_SERVICE_URL" } else c

/-- The CORS section of LoadFromEnv (part_000 lines 261-267). -/
def loadCORSEnv (g : String → String) (c : Config) : Config :=
  let c := if g "CORS_ORIGINS" ≠ "" then
      { c with CORS.AllowedOrigins := g "CORS_ORIGINS" } else c
  if g "CORS_ALLOWED_ORIGINS" ≠ "" then
    { c with CORS.AllowedOrigins := g "CORS_ALLOWED_ORIGINS" } else c

/-- The S3 section of LoadFromEnv (part_000 lines 269-284). -/
def loadS3Env (g : String → String) (c : Config) : Config :=
  let c := if g "S3_BUCKET" ≠ "" then { c with S3.Bucket := g "S3_BUCKET" } else c
  let c := if g "S3_REGION" ≠ "" then { c with S3.Region := g "S3_REGION" } else c
  let c := if g "S3_ACCESS_KEY" ≠ "" then { c with S3.AccessKey := g "S3_ACCESS_KEY" } else c
  let c := if g "S3_SECRET_KEY" ≠ "" then { c with S3.SecretKey := g "S3_SECRET_KEY" } else c
  if g "S3_ENDPOINT" ≠ "" then { c with S3.Endpoint := g "S3_ENDPOINT" } else c

/-- The Logger section of LoadFromEnv (part_000 lines 286-289). -/
def loadLoggerEnv (g : String → String) (c : Config) : Config :=
  if g "LOG_LEVEL" ≠ "" then { c with Logger.Level := g "LOG_LEVEL" } else c

/-- LoadFromEnv (part_000 lines 159-290): overrides configuration with
environment variables, section by section in source order. -/
def LoadFromEnv (g : String → String) (c : Config) : Config :=
  loadLoggerEnv g (loadS3Env g (loadCORSEnv g (loadServicesEnv g
    (loadJWTEnv g (loadRedisEnv g (loadDatabaseEnv g (loadServerEnv g c)))))))

/-- Load (part_000 lines 139-157).  File I/O and the external yaml library
are abstracted: `readFileResult = none` models `os.ReadFile` failing (the
file is skipped), `some (Except.error ())` models a file that read but
failed `yaml.Unmarshal` (a fatal load error), and `some (Except.ok f)`
models a parsed file acting as the field update `f` on the
default-populated config (yaml.Unmarshal overwrites exactly the fields the
file provides). -/
def Load (configPath : String) (readFileResult : Option (Except Unit (Config → Config)))
    (g : String → String) : Except String Config :=
  let cfg := DefaultConfig
  let afterFile : Except String Config :=
    if configPath ≠ "" then
      match readFileResult with
      | none => Except.ok cfg
      | some (Except.error _) => Except.error "failed to parse config file"
      | some (Except.ok apply) => Except.ok (apply cfg)
    else Except.ok cfg
  afterFile.map (LoadFromEnv g)

/-- An environment in which exactly DATABASE_URL is set, to the connection
URL of the spec's example. -/
def envDatabaseURLOnly : String → String := fun k =>
  if k = "DATABASE_URL" then "postgres://u:p@host:5432/dbname?sslmode=require" else ""

/-- A parsed YAML file that sets exactly the database host (the file of the
precedence example), as the field update it performs on the config. -/
def yamlSetsHost (a : String) : Config → Config := fun c =>
  { c with Database.Host := a }

/-- An environment in which DATABASE_URL and all five individual database
variables are set non-empty. -/
def envBothURLAndVars : String → String := fun k =>
  if k = "DATABASE_URL" then "postgres://u:p@host:5432/dbname?sslmode=require"
  else if k = "DB_HOST" then "h2"
  else if k = "DB_PORT" then "9999"
  else if k = "DB_USER" then "u2"
  else if k = "DB_PASSWORD" then "p2"
  else if k = "DB_NAME" then "d2"
  else ""

end config

namespace response

/-- PaginationMeta (response.go lines 37-43). -/
structure PaginationMeta where
  Page : Int
  PerPage : Int
  Total : Int
  TotalPages : Int
deriving DecidableEq, Repr

/-- The totalPages computation of Paginated (response.go lines 134-138):
Go `/` and `%` on int truncate toward zero (`Int.tdiv`/`Int.tmod`);
`perPage = 0` makes both divide by zero, a Go runtime panic, modelled as
`none`. -/
def paginatedTotalPages (total perPage : Int) : Option Int :=
  if perPage = 0 then none
  else
    let totalPages := Int.tdiv total perPage
    some (if Int.tmod total perPage > 0 then totalPages + 1 else totalPages)

/-- The pagination metadata built by Paginated (response.go lines 140-150);
`none` when the totalPages computation panics. -/
def Paginated (page perPage total : Int) : Option PaginationMeta :=
  (paginatedTotalPages total perPage).map fun tp =>
    { Page := page, PerPage := perPage, Total := total, TotalPages := tp }

end response

namespace middleware

/-- CORSConfig (part_001 lines 9-17). -/
structure CORSConfig where
  AllowedOrigins : List String
  AllowedMethods : List String
  AllowedHeaders : List String
  ExposedHeaders : List String
  AllowCredentials : Bool
  MaxAge : Int
deriving DecidableEq, Repr

/-- DefaultCORSConfig (part_001 lines 19-29). -/
def DefaultCORSConfig : CORSConfig :=
  { AllowedOrigins := ["*"]
    AllowedMethods := ["GET", "POST", "PUT", "PATCH", "DELETE", "OPTIONS"]
    AllowedHeaders := ["Origin", "Content-Type", "Accept", "Authorization",
                       "X-Request-ID", "X-Workspace-Id"]
    ExposedHeaders := ["X-Request-ID"]
    AllowCredentials := true
    MaxAge := 86400 }

/-- The part of an HTTP request the CORS middleware reads: the method and
the `Origin` header (`""` when absent). -/
structure Request where
  method : String
  origin : String
deriving DecidableEq, Repr

/-- What the middleware does with the handler chain:
`abortWithStatus s` models `c.AbortWithStatus(s)` — a terminal response
with status `s` and an empty body, after which downstream handlers never
run — and `next` models `c.Next()`, continuing the chain. -/
inductive Outcome where
  | abortWithStatus (status : Nat)
  | next
deriving DecidableEq, Repr

/-- The allow-origin computation of CORS (part_001 lines 36-47). -/
def corsAllowOrigin (config : CORSConfig) (origin : String) : String :=
  if config.AllowedOrigins.length > 0 ∧ config.AllowedOrigins.headD "" ≠ "*" then
    if config.AllowedOrigins.contains origin then origin else "*"
  else if origin ≠ "" then origin
  else "*"

/-- CORS (part_001 lines 31-66): the response headers set (in source
order) and the chain outcome for one request. -/
def CORS (config : CORSConfig) (req : Request) : List (String × String) × Outcome :=
  let allowOrigin := corsAllowOrigin config req.origin
  let headers :=
    [("Access-Control-Allow-Origin", allowOrigin),
     ("Access-Control-Allow-Methods", String.intercalate ", " config.AllowedMethods),
     ("Access-Control-Allow-Headers", String.intercalate ", " config.AllowedHeaders),
     ("Access-Control-Expose-Headers", String.intercalate ", " config.ExposedHeaders)] ++
    (if config.AllowCredentials then [("Access-Control-Allow-Credentials", "true")] else [])
  if req.method = "OPTIONS" then (headers, Outcome.abortWithStatus 204)
  else (headers, Outcome.next)

end middleware

/-! ## Theorems -/

namespace health

/-- One loop iteration takes the severity maximum of the running overall
status and the new check's status. -/
theorem severity_overallStep (s : Status) (chk : ComponentCheck) :
    severity (overallStep s chk) = max (severity s) (severity chk.status) := by
  cases hc : chk.status <;> cases s <;> simp [overallStep, hc, severity]

/-- `statusMax` realises the severity maximum. -/
theorem severity_statusMax (a b : Status) :
    severity (statusMax a b) = max (severity a) (severity b) := by
  cases a <;> cases b <;> decide

/-- `severity` is injective. -/
theorem severity_inj {a b : Status} (h : severity a = severity b) : a = b := by
  cases a <;> cases b <;> first | rfl | simp [severity] at h

/-- Severity of the aggregation fold from an arbitrary start status. -/
theorem severity_foldl (cs : List CheckerSpec) (s : Status) :
    severity (List.foldl (fun o ck => overallStep o ck.check) s cs) =
      max (severity s) ((cs.map fun ck => severity ck.check.status).foldr max 0) := by
  induction cs generalizing s with
  | nil => simp
  | cons c cs ih =>
    simp only [List.foldl_cons, ih, severity_overallStep, List.map_cons, List.foldr_cons]
    omega

/-- Severity of the `statusMax` fold. -/
theorem severity_foldr_statusMax (l : List Status) :
    severity (l.foldr statusMax Status.healthy) = (l.map severity).foldr max 0 := by
  induction l with
  | nil => rfl
  | cons a l ih => simp [severity_statusMax, ih]

/-- C1: for every readiness probe over a registry whose checkers report
statuses S1..Sn, the overall status in the response is the maximum of
S1..Sn under the severity order unhealthy > degraded > healthy (the
`statusMax` fold from `healthy`), and an empty registry yields `healthy`. -/
theorem readiness_overall_is_max_severity :
    (∀ now, (ReadyHandler [] now).2.status = Status.healthy) ∧
      ∀ (cs : List CheckerSpec) (now : String),
        (ReadyHandler cs now).2.status =
          (cs.map fun ck => ck.check.status).foldr statusMax Status.healthy := by
  refine ⟨fun now => rfl, fun cs now => ?_⟩
  apply severity_inj
  show severity (readyOverall cs) = _
  rw [readyOverall, severity_foldl, severity_foldr_statusMax, List.map_map]
  simp [severity, Function.comp_def]

/-- C2: the readiness probe's HTTP status code is 503 iff the aggregated
overall status is unhealthy; every other overall status yields 200. -/
theorem readiness_http_code_503_iff_unhealthy :
    ∀ (cs : List CheckerSpec) (now : String),
      ((ReadyHandler cs now).1 = 503 ↔ (ReadyHandler cs now).2.status = Status.unhealthy) ∧
        ((ReadyHandler cs now).2.status ≠ Status.unhealthy → (ReadyHandler cs now).1 = 200) := by
  intro cs now
  show (readyStatusCode cs = 503 ↔ readyOverall cs = Status.unhealthy) ∧
    (readyOverall cs ≠ Status.unhealthy → readyStatusCode cs = 200)
  unfold readyStatusCode
  by_cases h : readyOverall cs = Status.unhealthy <;> simp [h]

/-- Witness for C2: the empty registry is not unhealthy, so the code is
200. -/
theorem readiness_http_code_503_iff_unhealthy_witness :
    (ReadyHandler [] "t").1 = 200 :=
  (readiness_http_code_503_iff_unhealthy [] "t").2 (by decide)

/-- A string with a non-empty left part stays non-empty after appending. -/
theorem append_ne_nil (s t : String) (h : s.length ≠ 0) : s ++ t ≠ "" := by
  intro hc
  have h2 := congrArg String.length hc
  rw [String.length_append] at h2
  simp at h2
  omega

/-- C3: a checker whose underlying operation errors (database connection
acquisition, database ping, or the Redis ping function) produces a
ComponentCheck with status unhealthy whose message is non-empty and
contains the error text (the message is the fixed label with the error
text appended).  No error escapes: both checkers and `ReadyHandler` are
total functions into `ComponentCheck`/responses, with no error channel in
their result types. -/
theorem erroring_checker_reports_unhealthy :
    ∀ (e : String) (ping : Except String Unit) (elapsed : String),
      ((databaseCheck (Except.error e) ping elapsed).status = Status.unhealthy ∧
        (databaseCheck (Except.error e) ping elapsed).message =
          "Failed to get database connection: " ++ e ∧
        (databaseCheck (Except.error e) ping elapsed).message ≠ "") ∧
      ((databaseCheck (Except.ok ()) (Except.error e) elapsed).status = Status.unhealthy ∧
        (databaseCheck (Except.ok ()) (Except.error e) elapsed).message =
          "Database ping failed: " ++ e ∧
        (databaseCheck (Except.ok ()) (Except.error e) elapsed).message ≠ "") ∧
      ((redisCheck (Except.error e) elapsed).status = Status.unhealthy ∧
        (redisCheck (Except.error e) elapsed).message = "Redis ping failed: " ++ e ∧
        (redisCheck (Except.error e) elapsed).message ≠ "") := by
  intro e ping elapsed
  exact ⟨⟨rfl, rfl, append_ne_nil "Failed to get database connection: " e (by decide)⟩,
    ⟨rfl, rfl, append_ne_nil "Database ping failed: " e (by decide)⟩,
    ⟨rfl, rfl, append_ne_nil "Redis ping failed: " e (by decide)⟩⟩

/-- C4: the liveness probe returns status healthy with HTTP 200 and its
result is independent of the registry contents (the handler body never
reads the registry, so no checker is invoked). -/
theorem liveness_independent_of_registry :
    ∀ (cs cs' : List CheckerSpec) (now : String),
      HealthHandler cs now = HealthHandler cs' now ∧
        (HealthHandler cs now).1 = 200 ∧
        (HealthHandler cs now).2.status = Status.healthy :=
  fun _ _ _ => ⟨rfl, rfl, rfl⟩

end health

namespace config

/-- The Redis env section never touches the database settings. -/
theorem loadRedisEnv_database (g : String → String) (c : Config) :
    (loadRedisEnv g c).Database = c.Database := by
  unfold loadRedisEnv
  repeat' split
  all_goals rfl

/-- The JWT env section never touches the database settings. -/
theorem loadJWTEnv_database (g : String → String) (c : Config) :
    (loadJWTEnv g c).Database = c.Database := by
  unfold loadJWTEnv
  repeat' split
  all_goals rfl

/-- The Services env section never touches the database settings. -/
theorem loadServicesEnv_database (g : String → String) (c : Config) :
    (loadServicesEnv g c).Database = c.Database := by
  unfold loadServicesEnv
  repeat' split
  all_goals rfl

/-- The CORS env section never touches the database settings. -/
theorem loadCORSEnv_database (g : String → String) (c : Config) :
    (loadCORSEnv g c).Database = c.Database := by
  unfold loadCORSEnv
  repeat' split
  all_goals rfl

/-- The S3 env section never touches the database settings. -/
theorem loadS3Env_database (g : String → String) (c : Config) :
    (loadS3Env g c).Database = c.Database := by
  unfold loadS3Env
  repeat' split
  all_goals rfl

/-- The Logger env section never touches the database settings. -/
theorem loadLoggerEnv_database (g : String → String) (c : Config) :
    (loadLoggerEnv g c).Database = c.Database := by
  unfold loadLoggerEnv
  repeat' split
  all_goals rfl

/-- When DB_HOST is set non-empty, the database section yields it as host
(it is applied after the DATABASE_URL block). -/
theorem loadDatabaseEnv_host (g : String → String) (c : Config) (hb : g "DB_HOST" ≠ "") :
    (loadDatabaseEnv g c).Database.Host = g "DB_HOST" := by
  unfold loadDatabaseEnv
  repeat' split
  all_goals rfl

/-- When DB_PORT is set non-empty, the database section yields it as port. -/
theorem loadDatabaseEnv_port (g : String → String) (c : Config) (hb : g "DB_PORT" ≠ "") :
    (loadDatabaseEnv g c).Database.Port = g "DB_PORT" := by
  unfold loadDatabaseEnv
  repeat' split
  all_goals rfl

/-- When DB_USER is set non-empty, the database section yields it as user. -/
theorem loadDatabaseEnv_user (g : String → String) (c : Config) (hb : g "DB_USER" ≠ "") :
    (loadDatabaseEnv g c).Database.User = g "DB_USER" := by
  unfold loadDatabaseEnv
  repeat' split
  all_goals rfl

/-- When DB_PASSWORD is set non-empty, the database section yields it as
password. -/
theorem loadDatabaseEnv_password (g : String → String) (c : Config)
    (hb : g "DB_PASSWORD" ≠ "") :
    (loadDatabaseEnv g c).Database.Password = g "DB_PASSWORD" := by
  unfold loadDatabaseEnv
  repeat' split
  all_goals rfl

/-- When DB_NAME is set non-empty, the database section yields it as
database name. -/
theorem loadDatabaseEnv_dbname (g : String → String) (c : Config) (hb : g "DB_NAME" ≠ "") :
    (loadDatabaseEnv g c).Database.DBName = g "DB_NAME" := by
  unfold loadDatabaseEnv
  repeat' split
  all_goals rfl

/-- The sections after the database one preserve the database settings of
the full pipeline. -/
theorem LoadFromEnv_database (g : String → String) (c : Config) :
    (LoadFromEnv g c).Database =
      (loadDatabaseEnv g (loadServerEnv g c)).Database := by
  unfold LoadFromEnv
  rw [loadLoggerEnv_database, loadS3Env_database, loadCORSEnv_database,
      loadServicesEnv_database, loadJWTEnv_database, loadRedisEnv_database]

/-- C5: with DATABASE_URL set to
`postgres://u:p@host:5432/dbname?sslmode=require` (and nothing else),
loading the configuration derives host `host`, port `5432`, user `u`,
password `p`, database name `dbname` and SSL mode `require`. -/
theorem database_url_example_derivation :
    Load "" none envDatabaseURLOnly =
        Except.ok (LoadFromEnv envDatabaseURLOnly DefaultConfig) ∧
      (LoadFromEnv envDatabaseURLOnly DefaultConfig).Database.Host = "host" ∧
      (LoadFromEnv envDatabaseURLOnly DefaultConfig).Database.Port = "5432" ∧
      (LoadFromEnv envDatabaseURLOnly DefaultConfig).Database.User = "u" ∧
      (LoadFromEnv envDatabaseURLOnly DefaultConfig).Database.Password = "p" ∧
      (LoadFromEnv envDatabaseURLOnly DefaultConfig).Database.DBName = "dbname" ∧
      (LoadFromEnv envDatabaseURLOnly DefaultConfig).Database.SSLMode = "require" := by
  exact ⟨rfl, by decide, by decide, by decide, by decide, by decide, by decide⟩

/-- C6: precedence is defaults, then YAML file, then environment: when the
YAML file sets the database host to `a` and DB_HOST is set to `b`, the
loaded configuration's database host is `b`. -/
theorem env_overrides_yaml_host :
    ∀ (a b configPath : String) (g : String → String),
      configPath ≠ "" → b ≠ "" → g "DB_HOST" = b →
      (Load configPath (some (Except.ok (yamlSetsHost a))) g).map
          (fun c => c.Database.Host) =
        Except.ok b := by
  intro a b configPath g hp hb hg
  have key : (LoadFromEnv g (yamlSetsHost a DefaultConfig)).Database.Host = b :=
    ((congrArg DatabaseConfig.Host (LoadFromEnv_database g _)).trans
      (loadDatabaseEnv_host g _ (hg ▸ hb))).trans hg
  simp only [Load]
  rw [if_pos hp]
  show Except.ok ((LoadFromEnv g (yamlSetsHost a DefaultConfig)).Database.Host) = _
  rw [key]

/-- Witness for C6: the precedence example at host `a`, DB_HOST `b`. -/
theorem env_overrides_yaml_host_witness :
    (Load "config.yaml" (some (Except.ok (yamlSetsHost "a")))
          (fun k => if k = "DB_HOST" then "b" else "")).map
        (fun c => c.Database.Host) =
      Except.ok "b" :=
  env_overrides_yaml_host "a" "b" "config.yaml" _ (by decide) (by decide) (by decide)

/-- C10: within LoadFromEnv the DATABASE_URL composite is applied before
the individual database variables, so whenever DATABASE_URL and an
individual variable are both set non-empty, the individual variable's
value wins for its field. -/
theorem individual_db_vars_override_database_url :
    ∀ (c : Config) (g : String → String), g "DATABASE_URL" ≠ "" →
      (g "DB_HOST" ≠ "" → (LoadFromEnv g c).Database.Host = g "DB_HOST") ∧
      (g "DB_PORT" ≠ "" → (LoadFromEnv g c).Database.Port = g "DB_PORT") ∧
      (g "DB_USER" ≠ "" → (LoadFromEnv g c).Database.User = g "DB_USER") ∧
      (g "DB_PASSWORD" ≠ "" → (LoadFromEnv g c).Database.Password = g "DB_PASSWORD") ∧
      (g "DB_NAME" ≠ "" → (LoadFromEnv g c).Database.DBName = g "DB_NAME") := by
  intro c g _
  refine ⟨fun h => ?_, fun h => ?_, fun h => ?_, fun h => ?_, fun h => ?_⟩
  · exact (congrArg DatabaseConfig.Host (LoadFromEnv_database g c)).trans
      (loadDatabaseEnv_host g _ h)
  · exact (congrArg DatabaseConfig.Port (LoadFromEnv_database g c)).trans
      (loadDatabaseEnv_port g _ h)
  · exact (congrArg DatabaseConfig.User (LoadFromEnv_database g c)).trans
      (loadDatabaseEnv_user g _ h)
  · exact (congrArg DatabaseConfig.Password (LoadFromEnv_database g c)).trans
      (loadDatabaseEnv_password g _ h)
  · exact (congrArg DatabaseConfig.DBName (LoadFromEnv_database g c)).trans
      (loadDatabaseEnv_dbname g _ h)

/-- Witness for C10: an environment with DATABASE_URL and all five
individual variables set; the individual values win. -/
theorem individual_db_vars_override_database_url_witness :
    (LoadFromEnv envBothURLAndVars DefaultConfig).Database.Host = "h2" ∧
      (LoadFromEnv envBothURLAndVars DefaultConfig).Database.Port = "9999" ∧
      (LoadFromEnv envBothURLAndVars DefaultConfig).Database.User = "u2" ∧
      (LoadFromEnv envBothURLAndVars DefaultConfig).Database.Password = "p2" ∧
      (LoadFromEnv envBothURLAndVars DefaultConfig).Database.DBName = "d2" := by
  have h := individual_db_vars_override_database_url DefaultConfig envBothURLAndVars
    (by decide)
  exact ⟨(h.1 (by decide)).trans (by decide),
    (h.2.1 (by decide)).trans (by decide),
    (h.2.2.1 (by decide)).trans (by decide),
    (h.2.2.2.1 (by decide)).trans (by decide),
    (h.2.2.2.2 (by decide)).trans (by decide)⟩

end config

namespace response

/-- For a nonnegative dividend and positive divisor, Euclidean division
rounded up by the remainder test is the rational ceiling. -/
theorem ceil_div_eq_ediv_succ (total perPage : Int) (hp : 0 < perPage) :
    ⌈(total : ℚ) / (perPage : ℚ)⌉ =
      if 0 < total % perPage then total / perPage + 1 else total / perPage := by
  have hne : perPage ≠ 0 := hp.ne'
  have hq : (0 : ℚ) < (perPage : ℚ) := by exact_mod_cast hp
  have hid : perPage * (total / perPage) + total % perPage = total :=
    Int.ediv_add_emod total perPage
  have hlt : total % perPage < perPage := Int.emod_lt_of_pos total hp
  have hge : 0 ≤ total % perPage := Int.emod_nonneg total hne
  rw [Int.ceil_eq_iff]
  by_cases hr : 0 < total % perPage
  · rw [if_pos hr]
    constructor
    · rw [lt_div_iff₀ hq]
      have key : ((total / perPage) * perPage : Int) < total := by nlinarith
      have keyq : (((total / perPage) * perPage : Int) : ℚ) < ((total : Int) : ℚ) := by
        exact_mod_cast key
      push_cast at keyq ⊢
      linarith
    · rw [div_le_iff₀ hq]
      have key : total ≤ (total / perPage + 1) * perPage := by nlinarith
      exact_mod_cast key
  · rw [if_neg hr]
    have hr0 : total % perPage = 0 := le_antisymm (not_lt.mp hr) hge
    constructor
    · rw [lt_div_iff₀ hq]
      have key : ((total / perPage - 1) * perPage : Int) < total := by nlinarith
      have keyq : (((total / perPage - 1) * perPage : Int) : ℚ) < ((total : Int) : ℚ) := by
        exact_mod_cast key
      push_cast at keyq ⊢
      linarith
    · rw [div_le_iff₀ hq]
      have key : total ≤ (total / perPage) * perPage := by nlinarith
      exact_mod_cast key

/-- C7: for per-page count > 0 and total ≥ 0, the totalPages of a
paginated response is the ceiling of total divided by perPage. -/
theorem paginated_total_pages_is_ceiling :
    ∀ (page total perPage : Int), 0 ≤ total → 0 < perPage →
      (Paginated page perPage total).map (fun m => m.TotalPages) =
        some ⌈(total : ℚ) / (perPage : ℚ)⌉ := by
  intro page total perPage ht hp
  unfold Paginated paginatedTotalPages
  rw [if_neg hp.ne', Int.tdiv_eq_ediv ht hp.le, Int.tmod_eq_emod ht hp.le,
      ceil_div_eq_ediv_succ total perPage hp]
  rfl

/-- Witness for C7: total = 95, perPage = 20 gives totalPages = 5, the
ceiling of 95/20. -/
theorem paginated_total_pages_is_ceiling_witness :
    (Paginated 1 20 95).map (fun m => m.TotalPages) = some ⌈((95 : Int) : ℚ) / ((20 : Int) : ℚ)⌉ ∧
      (Paginated 1 20 95).map (fun m => m.TotalPages) = some 5 := by
  have h := paginated_total_pages_is_ceiling 1 95 20 (by decide) (by decide)
  have hc : ⌈((95 : Int) : ℚ) / ((20 : Int) : ℚ)⌉ = (5 : Int) := by
    rw [Int.ceil_eq_iff]
    norm_num
  exact ⟨h, h.trans (congrArg some hc)⟩

/-- C9: the Paginated helper is only well-defined for perPage ≠ 0: with
perPage = 0 its totalPages computation divides by zero (`none`, a Go
runtime panic), and with perPage ≠ 0 that panic branch is unreachable
(the result always exists). -/
theorem paginated_requires_nonzero_per_page :
    (∀ page total : Int, Paginated page 0 total = none) ∧
      ∀ page perPage total : Int, perPage ≠ 0 → (Paginated page perPage total).isSome := by
  constructor
  · intro page total
    simp [Paginated, paginatedTotalPages]
  · intro page perPage total h
    simp [Paginated, paginatedTotalPages, h]

/-- Witness for C9: perPage = 0 panics at total = 95; perPage = 20 does
not. -/
theorem paginated_requires_nonzero_per_page_witness :
    Paginated 1 0 95 = none ∧ (Paginated 1 20 95).isSome :=
  ⟨paginated_requires_nonzero_per_page.1 1 95,
   paginated_requires_nonzero_per_page.2 1 20 95 (by decide)⟩

end response

namespace middleware

/-- C8: a request with method OPTIONS makes the CORS middleware abort the
chain with a terminal 204 response and no body (`Outcome.abortWithStatus`
models `c.AbortWithStatus`, which writes only the status and stops the
chain), so downstream handlers never run for preflight requests. -/
theorem cors_preflight_aborts_with_204 :
    ∀ (cfg : CORSConfig) (req : Request), req.method = "OPTIONS" →
      (CORS cfg req).2 = Outcome.abortWithStatus 204 := by
  intro cfg req h
  unfold CORS
  simp [h]

/-- Witness for C8: a concrete OPTIONS request under the default CORS
configuration. -/
theorem cors_preflight_aborts_with_204_witness :
    (CORS DefaultCORSConfig { method := "OPTIONS", origin := "" }).2 =
      Outcome.abortWithStatus 204 :=
  cors_preflight_aborts_with_204 DefaultCORSConfig { method := "OPTIONS", origin := "" } rfl

end middleware
